import Mathlib

/-!
Shallow embedding of `src/codepipe_stack.py` (class `CodepipeStack`).

The Python file is a straight-line declarative constructor: it creates a
CodeCommit repository, an S3 artifact bucket, a CodeBuild project, a VPC,
a security group, an EC2 instance with a startup script, a three-stage
CodePipeline, and one CfnOutput.  Each CDK construct call is mirrored
here by a Lean structure value; resource identity (e.g. "the same bucket
object") is captured by the shared Lean definition of the resource.
Unresolved CDK tokens such as `artifact_bucket.bucket_name` are modelled
as token lists (`TokenStr`) so that Python string concatenation of a
literal with a token stays observable.
-/

/-- An S3 bucket construct (`s3.Bucket(self, "ArtifactBucket")`). -/
structure Bucket where
  constructId : String
deriving DecidableEq, Repr

/-- One fragment of a string value in the synthesized template: either a
literal piece of text or the (deploy-time) name token of a bucket. -/
inductive StrTok where
  | lit (s : String)
  | bucketNameRef (b : Bucket)
deriving DecidableEq, Repr

/-- A string value that may contain unresolved tokens, as a fragment list. -/
abbrev TokenStr := List StrTok

/-- Literal token string. -/
def tlit (s : String) : TokenStr := [StrTok.lit s]

/-- Models the CDK property `bucket.bucket_name`: an unresolved token
referring to the bucket's deploy-time name. -/
def Bucket.bucket_name (b : Bucket) : TokenStr := [StrTok.bucketNameRef b]

/-- Buckets referred to by the tokens of a token string. -/
def bucketRefs (t : TokenStr) : List Bucket :=
  t.filterMap (fun tok =>
    match tok with
    | StrTok.bucketNameRef b => some b
    | StrTok.lit _ => none)

/-- A CodeCommit repository construct. -/
structure Repository where
  constructId : String
  repository_name : String
  code_directory : String
  code_branch : String
deriving DecidableEq, Repr

/-- The `install` phase of a CodeBuild buildspec. -/
structure InstallPhase where
  runtime_versions : List (String × String)
  commands : List String
deriving DecidableEq, Repr

/-- The `build` phase of a CodeBuild buildspec. -/
structure BuildPhase where
  commands : List String
deriving DecidableEq, Repr

/-- The `artifacts` section of a CodeBuild buildspec. -/
structure ArtifactsSpec where
  files : List String
  base_directory : String
deriving DecidableEq, Repr

/-- A CodeBuild buildspec object (`BuildSpec.from_object`). -/
structure BuildSpec where
  version : String
  install : InstallPhase
  build : BuildPhase
  artifacts : ArtifactsSpec
deriving DecidableEq, Repr

/-- A CodeBuild pipeline project. -/
structure PipelineProject where
  constructId : String
  project_name : String
  build_spec : BuildSpec
  build_image : String
  environment_variables : List (String × TokenStr)
deriving DecidableEq, Repr

/-- A VPC construct. -/
structure Vpc where
  constructId : String
  cidr : String
deriving DecidableEq, Repr

/-- A traffic peer of a security-group rule (`ec2.Peer.any_ipv4()`). -/
inductive Peer where
  | anyIpv4
deriving DecidableEq, Repr

/-- The CIDR range denoted by a peer. -/
def Peer.cidr : Peer → String
  | Peer.anyIpv4 => "0.0.0.0/0"

/-- A port specification of a security-group rule (`ec2.Port.tcp(n)`). -/
inductive PortSpec where
  | tcp (port : Nat)
deriving DecidableEq, Repr

/-- One ingress rule added via `add_ingress_rule`. -/
structure IngressRule where
  peer : Peer
  connection : PortSpec
  description : String
  remote_rule : Bool
deriving DecidableEq, Repr

/-- A security-group construct. -/
structure SecurityGroup where
  constructId : String
  vpc : Vpc
  allow_all_outbound : Bool
  ingress_rules : List IngressRule
deriving DecidableEq, Repr

/-- Models the mutating method `SecurityGroup.add_ingress_rule`. -/
def SecurityGroup.add_ingress_rule (sg : SecurityGroup) (peer : Peer)
    (connection : PortSpec) (description : String) (remote_rule : Bool) :
    SecurityGroup :=
  { sg with ingress_rules :=
      sg.ingress_rules ++ [⟨peer, connection, description, remote_rule⟩] }

/-- EC2 user data: a shebang plus an ordered command list. -/
structure UserData where
  shebang : String
  commands : List TokenStr
deriving DecidableEq, Repr

/-- Models `ec2.UserData.for_linux(shebang=...)`. -/
def UserData.for_linux (shebang : String) : UserData :=
  { shebang := shebang, commands := [] }

/-- Models the mutating method `user_data.add_commands(...)`. -/
def UserData.add_commands (ud : UserData) (cmds : List TokenStr) : UserData :=
  { ud with commands := ud.commands ++ cmds }

/-- An EC2 instance construct. -/
structure Ec2Instance where
  constructId : String
  instance_type : String
  machine_image : String
  vpc : Vpc
  security_group : SecurityGroup
  user_data : UserData
deriving DecidableEq, Repr

/-- A pipeline action, one constructor per `aws_codepipeline_actions`
class used (or mentioned) by the source.  Artifacts are identified by
their logical name, exactly as `pipeline.Artifact("...")` does. -/
inductive PipeAction where
  | codeCommitSource (action_name : String) (branch : String)
      (repository : Repository) (output : String)
  | codeBuild (action_name : String) (project : PipelineProject)
      (input : String) (outputs : List String)
  | s3Deploy (action_name : String) (input : String) (bucket : Bucket)
      (extract : Bool)
  | cfnCreateUpdateStack (action_name : String) (template_artifact : String)
      (template_file : String) (stack_name : String) (admin_permissions : Bool)
  | lambdaInvoke (action_name : String)
deriving DecidableEq, Repr

/-- Artifact names consumed by an action. -/
def PipeAction.inputArtifacts : PipeAction → List String
  | PipeAction.codeCommitSource _ _ _ _ => []
  | PipeAction.codeBuild _ _ input _ => [input]
  | PipeAction.s3Deploy _ input _ _ => [input]
  | PipeAction.cfnCreateUpdateStack _ template_artifact _ _ _ => [template_artifact]
  | PipeAction.lambdaInvoke _ => []

/-- Artifact names produced by an action. -/
def PipeAction.outputArtifacts : PipeAction → List String
  | PipeAction.codeCommitSource _ _ _ out => [out]
  | PipeAction.codeBuild _ _ _ outs => outs
  | PipeAction.s3Deploy _ _ _ _ => []
  | PipeAction.cfnCreateUpdateStack _ _ _ _ _ => []
  | PipeAction.lambdaInvoke _ => []

/-- Whether an action is a Lambda-invoke action. -/
def PipeAction.isLambdaInvoke : PipeAction → Bool
  | PipeAction.lambdaInvoke _ => true
  | _ => false

/-- The buckets an action deploys into (only `S3DeployAction` has one). -/
def PipeAction.deployBuckets : PipeAction → List Bucket
  | PipeAction.s3Deploy _ _ b _ => [b]
  | _ => []

/-- One stage of a pipeline (`pipeline.StageProps`). -/
structure StageProps where
  stage_name : String
  actions : List PipeAction
deriving DecidableEq, Repr

/-- A CodePipeline construct. -/
structure Pipeline where
  constructId : String
  pipeline_name : String
  stages : List StageProps
deriving DecidableEq, Repr

/-- All artifact names consumed by a stage's actions, in declared order. -/
def stageInputs (s : StageProps) : List String :=
  (s.actions.map PipeAction.inputArtifacts).flatten

/-- All artifact names produced by a stage's actions, in declared order. -/
def stageOutputs (s : StageProps) : List String :=
  (s.actions.map PipeAction.outputArtifacts).flatten

/-- Checks that, walking the stages in order with `avail` the set of
artifact names produced so far, every stage only consumes names already
available (i.e. produced by a strictly earlier stage or initially given). -/
def artifactFlowOkFrom (avail : List String) : List StageProps → Bool
  | [] => true
  | s :: rest =>
      (stageInputs s).all (fun a => avail.contains a) &&
      artifactFlowOkFrom (avail ++ stageOutputs s) rest

/-- The pipeline-wide artifact-flow invariant, starting with no artifacts. -/
def artifactFlowOk (p : Pipeline) : Bool :=
  artifactFlowOkFrom [] p.stages

/-- The value of a CfnOutput (here only the instance public-IP attribute). -/
inductive CfnValue where
  | instancePublicIp (i : Ec2Instance)
deriving DecidableEq, Repr

/-- A `CfnOutput` declaration. -/
structure CfnOutputDecl where
  constructId : String
  value : CfnValue
deriving DecidableEq, Repr

/-- A permission grant issued during stack construction. -/
inductive Grant where
  | repoRead (repo : Repository) (grantee : PipelineProject)
  | bucketRead (bucket : Bucket) (grantee : Ec2Instance)
deriving DecidableEq, Repr

/-- A Lambda function construct (none is created by this stack; the
source's Lambda block is commented out). -/
structure LambdaFunction where
  constructId : String
  handler : String
deriving DecidableEq, Repr

/-- Everything the `CodepipeStack.__init__` constructor declares. -/
structure CodepipeStack where
  code_repo : Repository
  buckets : List Bucket
  artifact_bucket : Bucket
  build_project : PipelineProject
  lambda_functions : List LambdaFunction
  vpc : Vpc
  instance_sg : SecurityGroup
  app_instance : Ec2Instance
  grants : List Grant
  code_pipeline : Pipeline
  outputs : List CfnOutputDecl
deriving DecidableEq, Repr

/-- `codecommit.Repository(self, "CodeRepo", ...)`, lines 23-28. -/
def code_repo : Repository :=
  { constructId := "CodeRepo"
    repository_name := "simple-app-code-repo"
    code_directory := "app"
    code_branch := "main" }

/-- `s3.Bucket(self, "ArtifactBucket")`, line 31. -/
def artifact_bucket : Bucket :=
  { constructId := "ArtifactBucket" }

/-- The buildspec object passed to the build project, lines 37-61. -/
def build_spec : BuildSpec :=
  { version := "0.2"
    install :=
      { runtime_versions := [("python", "3.9")]
        commands := ["pip install -r requirements.txt"] }
    build :=
      { commands := ["echo Building the Python app...", "python build.py"] }
    artifacts :=
      { files := ["**/*"]
        base_directory := "dist" } }

/-- The full command list a CodeBuild run of this buildspec executes:
the install-phase commands followed by the build-phase commands. -/
def buildCommands (bs : BuildSpec) : List String :=
  bs.install.commands ++ bs.build.commands

/-- `codebuild.PipelineProject(self, "BuildProject", ...)`, lines 34-68. -/
def build_project : PipelineProject :=
  { constructId := "BuildProject"
    project_name := "PythonAppBuildProject"
    build_spec := build_spec
    build_image := "STANDARD_5_0"
    environment_variables := [("BUCKET_NAME", artifact_bucket.bucket_name)] }

/-- `ec2.Vpc(self, "InstanceVpc", cidr="10.0.0.0/16")`, lines 101-104. -/
def vpc : Vpc :=
  { constructId := "InstanceVpc", cidr := "10.0.0.0/16" }

/-- `ec2.SecurityGroup(self, "InstanceSecurityGroup", ...)` followed by
the single `add_ingress_rule` call, lines 107-119. -/
def instance_sg : SecurityGroup :=
  SecurityGroup.add_ingress_rule
    { constructId := "InstanceSecurityGroup"
      vpc := vpc
      allow_all_outbound := true
      ingress_rules := [] }
    Peer.anyIpv4 (PortSpec.tcp 22) "Allow SSH access" false

/-- `ec2.Instance(self, "AppInstance", ...)` followed by
`instance.user_data.add_commands(...)`, lines 122-137.  Named
`app_instance` because `instance` is a Lean keyword. -/
def app_instance : Ec2Instance :=
  let base : Ec2Instance :=
    { constructId := "AppInstance"
      instance_type := "t2.micro"
      machine_image := "AMAZON_LINUX_2"
      vpc := vpc
      security_group := instance_sg
      user_data := UserData.for_linux "#!/bin/bash" }
  { base with user_data :=
      (base.user_data.add_commands
        [ tlit "yum install -y python3"
        , tlit "aws s3 cp s3://" ++ artifact_bucket.bucket_name ++
            tlit "/dist/djangopro.tar.gz /tmp/djangopro.tar.gz"
        , tlit "tar -zxvf /tmp/djangopro.tar.gz -C /tmp"
        , tlit "cd /tmp/bloodbankmanagement"
        , tlit "python3 manage.py runserver 0.0.0.0:8000" ]) }

/-- `pipeline.Pipeline(self, "BuildDeployPipeline", ...)`, lines 143-188.
The commented-out `trigger_lambda` action of the Build stage is not part
of the constructed declaration. -/
def code_pipeline : Pipeline :=
  { constructId := "BuildDeployPipeline"
    pipeline_name := "PythonAppPipeline"
    stages :=
      [ { stage_name := "Source"
          actions :=
            [ PipeAction.codeCommitSource "CodeCommit" "main" code_repo
                "SourceOutput" ] }
      , { stage_name := "Build"
          actions :=
            [ PipeAction.codeBuild "Build" build_project "SourceOutput"
                ["BuildOutput"] ] }
      , { stage_name := "Deploy"
          actions :=
            [ PipeAction.s3Deploy "Deploy" "BuildOutput" artifact_bucket true
            , PipeAction.cfnCreateUpdateStack "UpdateStack" "BuildOutput"
                "template.yaml" "PythonAppStack" true ] } ] }

/-- The whole stack, assembling every construct, grant and output the
constructor declares, in source order. -/
def codepipeStack : CodepipeStack :=
  { code_repo := code_repo
    buckets := [artifact_bucket]
    artifact_bucket := artifact_bucket
    build_project := build_project
    lambda_functions := []
    vpc := vpc
    instance_sg := instance_sg
    app_instance := app_instance
    grants :=
      [ Grant.repoRead code_repo build_project
      , Grant.bucketRead artifact_bucket app_instance ]
    code_pipeline := code_pipeline
    outputs :=
      [ { constructId := "InstancePublicIp"
          value := CfnValue.instancePublicIp app_instance } ] }

/-- C1: the declared pipeline has exactly the three stages Source, Build,
Deploy in that order, and the Source stage consists of a single
CodeCommit source action checking out branch "main" of the repository
and producing the artifact "SourceOutput". -/
theorem C1_stage_order_and_source_checkout :
    codepipeStack.code_pipeline.stages.map StageProps.stage_name =
      ["Source", "Build", "Deploy"]
    ∧ (codepipeStack.code_pipeline.stages[0]?).map StageProps.actions =
      some [PipeAction.codeCommitSource "CodeCommit" "main" code_repo
        "SourceOutput"]
    ∧ code_repo.code_branch = "main" := by
  decide

/-- C2: the Build stage's single CodeBuild action consumes "SourceOutput",
declares "BuildOutput" as its output, and its project's environment maps
"BUCKET_NAME" to the name token of the stack's artifact bucket. -/
theorem C2_build_action_contract :
    (codepipeStack.code_pipeline.stages[1]?).map StageProps.actions =
      some [PipeAction.codeBuild "Build" build_project "SourceOutput"
        ["BuildOutput"]]
    ∧ build_project.environment_variables.lookup "BUCKET_NAME" =
      some codepipeStack.artifact_bucket.bucket_name := by
  decide

/-- C3: the Deploy stage runs the S3 deploy action ("Deploy") and then the
CloudFormation create/update action ("UpdateStack"), in that order, both
consuming "BuildOutput"; the CloudFormation action applies "template.yaml"
from that artifact to the stack "PythonAppStack". -/
theorem C3_deploy_stage_actions :
    (codepipeStack.code_pipeline.stages[2]?).map StageProps.actions =
      some [ PipeAction.s3Deploy "Deploy" "BuildOutput" artifact_bucket true
           , PipeAction.cfnCreateUpdateStack "UpdateStack" "BuildOutput"
               "template.yaml" "PythonAppStack" true ]
    ∧ (codepipeStack.code_pipeline.stages[2]?).map stageInputs =
      some ["BuildOutput", "BuildOutput"] := by
  decide

/-- C4: walking the pipeline's stages in order, every artifact name a
stage consumes was produced by a strictly earlier stage; concretely,
Build consumes exactly "SourceOutput", which Source outputs, and the two
Deploy actions consume exactly "BuildOutput" twice, which Build outputs. -/
theorem C4_artifact_flow_invariant :
    artifactFlowOk codepipeStack.code_pipeline = true
    ∧ (codepipeStack.code_pipeline.stages[1]?).map stageInputs =
      some ["SourceOutput"]
    ∧ (codepipeStack.code_pipeline.stages[0]?).map stageOutputs =
      some ["SourceOutput"]
    ∧ (codepipeStack.code_pipeline.stages[2]?).map stageInputs =
      some ["BuildOutput", "BuildOutput"]
    ∧ (codepipeStack.code_pipeline.stages[1]?).map stageOutputs =
      some ["BuildOutput"] := by
  decide

/-- C5 counterexample: the command list the Build stage's buildspec
executes (install phase then build phase) is not the two-command list
["pip install -r requirements.txt", "python build.py"]: the build phase
starts with an extra echo command. -/
theorem C5_two_commands_counterexample :
    ¬ buildCommands codepipeStack.build_project.build_spec =
      ["pip install -r requirements.txt", "python build.py"] := by
  decide

/-- C5 amended: the command list executed by the Build stage is exactly
the three commands "pip install -r requirements.txt" (install phase),
then "echo Building the Python app..." and "python build.py" (build
phase), in that order. -/
theorem C5_build_command_list :
    buildCommands codepipeStack.build_project.build_spec =
      [ "pip install -r requirements.txt"
      , "echo Building the Python app..."
      , "python build.py" ] := by
  decide

/-- C6: the build project of the pipeline's Build action declares its
output artifact as the files matching the glob pattern together with a
base directory: files ["**/*"] under base directory "dist". -/
theorem C6_build_artifact_files :
    codepipeStack.build_project.build_spec.artifacts.files = ["**/*"]
    ∧ codepipeStack.build_project.build_spec.artifacts.base_directory = "dist"
    ∧ (codepipeStack.code_pipeline.stages[1]?).map
        (fun s => s.actions.map (fun a =>
          match a with
          | PipeAction.codeBuild _ p _ _ => some p.build_spec.artifacts
          | _ => none)) =
      some [some { files := ["**/*"], base_directory := "dist" }] := by
  decide

/-- C7: the stack declares exactly one output, keyed "InstancePublicIp",
whose value is the public-IP attribute of the provisioned EC2 instance. -/
theorem C7_single_output_instance_public_ip :
    codepipeStack.outputs =
      [ { constructId := "InstancePublicIp"
          value := CfnValue.instancePublicIp codepipeStack.app_instance } ] := by
  decide

/-- C8: the Build stage of the constructed pipeline holds exactly the one
CodeBuild action, no action of any stage is a Lambda-invoke action, and
the stack creates no Lambda function. -/
theorem C8_no_lambda_trigger :
    (codepipeStack.code_pipeline.stages[1]?).map StageProps.actions =
      some [PipeAction.codeBuild "Build" build_project "SourceOutput"
        ["BuildOutput"]]
    ∧ codepipeStack.code_pipeline.stages.all
        (fun s => s.actions.all (fun a => ! PipeAction.isLambdaInvoke a)) = true
    ∧ codepipeStack.lambda_functions = [] := by
  decide

/-- C9: the stack creates exactly one bucket, and that same bucket object
is the one named by the build project's BUCKET_NAME environment value,
the target of the Deploy stage's S3 deploy action, the bucket the
instance is granted read access to, and the bucket the instance's second
startup command downloads "dist/djangopro.tar.gz" from. -/
theorem C9_single_artifact_bucket :
    codepipeStack.buckets = [artifact_bucket]
    ∧ (codepipeStack.build_project.environment_variables.lookup
        "BUCKET_NAME").map bucketRefs = some [artifact_bucket]
    ∧ (codepipeStack.code_pipeline.stages[2]?).map
        (fun s => (s.actions.map PipeAction.deployBuckets).flatten) =
      some [artifact_bucket]
    ∧ Grant.bucketRead artifact_bucket codepipeStack.app_instance ∈
        codepipeStack.grants
    ∧ codepipeStack.app_instance.user_data.commands[1]? =
      some (tlit "aws s3 cp s3://" ++ artifact_bucket.bucket_name ++
        tlit "/dist/djangopro.tar.gz /tmp/djangopro.tar.gz") := by
  decide

/-- C10: the instance's security group allows all outbound traffic and
declares exactly one ingress rule, TCP port 22 from any IPv4 address
(0.0.0.0/0); in particular no ingress rule mentions port 8000, on which
the startup script's last command serves the app. -/
theorem C10_security_group_rules :
    codepipeStack.instance_sg.allow_all_outbound = true
    ∧ codepipeStack.instance_sg.ingress_rules =
      [ { peer := Peer.anyIpv4, connection := PortSpec.tcp 22
          description := "Allow SSH access", remote_rule := false } ]
    ∧ Peer.cidr Peer.anyIpv4 = "0.0.0.0/0"
    ∧ codepipeStack.instance_sg.ingress_rules.all
        (fun r => decide (r.connection ≠ PortSpec.tcp 8000)) = true
    ∧ tlit "python3 manage.py runserver 0.0.0.0:8000" ∈
        codepipeStack.app_instance.user_data.commands := by
  decide
